import Mathlib

/-!
Verification of the Salt_Waste_Optimization core against its specification.

The development shallowly embeds, in Lean 4 over exact arithmetic:

* `WasteCompositionModel.calculate_composition`
  (src/digital_twin_module-v2/src/physics_models.py) over `ℝ`
  (the model uses a square root, so real numbers are required;
  Python float arithmetic is modelled by exact real arithmetic);
* `WasteDistributor.calibrate`, `calculate_waste_potential` and the
  per-year body of `distribute` (src/digital_twin_module-v2/src/digital_twin.py)
  over `ℝ` (the potential score uses a real exponent `production ** weight`);
* `FeatureConstraints` (src/waste_optimization_module/constraints.py) over `ℚ`;
* `WasteOptimizer._objective_target_waste` and the control flow of
  `WasteOptimizer.optimize_target_waste`
  (src/waste_optimization_module/optimizer.py) over `ℚ`, with the external
  scipy solvers, the numpy random starts and the external regression model
  (`predict_waste`) taken as oracle parameters.

Division in Lean returns 0 on a zero denominator; every place where the
Python code can actually divide by zero is flagged in the corresponding
theorem or counterexample.
-/

/-- One input record for `WasteCompositionModel.calculate_composition`
(physics_models.py lines 43-49).  `production_capacity` is stored explicitly:
the Python `row.get('production_capacity', production_vol / 0.8)` default is
applied by the callers that build the row. -/
structure Row where
  predicted_waste_kg : ℝ
  production_volume : ℝ
  production_capacity : ℝ
  rain_sum : ℝ
  temperature_mean : ℝ
  humidity_mean : ℝ
  wind_speed_mean : ℝ

/-- `self.solid_ratios['Limestone']` (physics_models.py line 15). -/
noncomputable def solid_ratio_Limestone : ℝ := 0.15

/-- `self.solid_ratios['Gypsum']` (physics_models.py line 16). -/
noncomputable def solid_ratio_Gypsum : ℝ := 0.60

/-- `self.solid_ratios['Industrial_Salt']` (physics_models.py line 17). -/
noncomputable def solid_ratio_Industrial_Salt : ℝ := 0.25

/-- `self.base_bittern_ratio` (physics_models.py line 25). -/
noncomputable def base_bittern_ratio : ℝ := 0.3

/-- `self.intensity_bittern_ratio` (physics_models.py line 28). -/
noncomputable def intensity_bittern_ratio : ℝ := 0.7

/-- `self.recovery_factors['Epsom_Salt']` (physics_models.py line 32). -/
noncomputable def recovery_Epsom_Salt : ℝ := 0.05

/-- `self.recovery_factors['Potash']` (physics_models.py line 33). -/
noncomputable def recovery_Potash : ℝ := 0.02

/-- `self.recovery_factors['Magnesium_Oil']` (physics_models.py line 34). -/
noncomputable def recovery_Magnesium_Oil : ℝ := 0.10

/-- `scale_efficiency = min(1.2, production_capacity / 50000.0)`
(physics_models.py line 60). -/
noncomputable def scale_efficiency (row : Row) : ℝ :=
  min 1.2 (row.production_capacity / 50000)

/-- `limestone_score = self.solid_ratios['Limestone'] / scale_efficiency`
(physics_models.py line 63). -/
noncomputable def limestone_score (row : Row) : ℝ :=
  solid_ratio_Limestone / scale_efficiency row

/-- `gypsum_base = self.solid_ratios['Gypsum'] * (1 + 0.01 * (temp - 25))`
(physics_models.py line 67). -/
noncomputable def gypsum_base (row : Row) : ℝ :=
  solid_ratio_Gypsum * (1 + 0.01 * (row.temperature_mean - 25))

/-- `gypsum_score = gypsum_base / (scale_efficiency ** 0.5)`
(physics_models.py line 68).  For the non-negative `scale_efficiency`
values reachable here, Python `x ** 0.5` is `Real.sqrt`. -/
noncomputable def gypsum_score (row : Row) : ℝ :=
  gypsum_base row / Real.sqrt (scale_efficiency row)

/-- `production_intensity = production_vol / production_capacity`
(physics_models.py line 56). -/
noncomputable def production_intensity (row : Row) : ℝ :=
  row.production_volume / row.production_capacity

/-- `salt_base = self.solid_ratios['Industrial_Salt'] * (1 + 0.02 * rain)`
(physics_models.py line 72). -/
noncomputable def salt_base (row : Row) : ℝ :=
  solid_ratio_Industrial_Salt * (1 + 0.02 * row.rain_sum)

/-- `intensity_factor = 1 + 0.1 * (production_intensity - 0.8)`
(physics_models.py line 73). -/
noncomputable def intensity_factor (row : Row) : ℝ :=
  1 + 0.1 * (production_intensity row - 0.8)

/-- `salt_waste_score = salt_base * intensity_factor`
(physics_models.py line 74). -/
noncomputable def salt_waste_score (row : Row) : ℝ :=
  salt_base row * intensity_factor row

/-- `total_solid_score = sum(solid_scores.values())`
(physics_models.py line 82). -/
noncomputable def total_solid_score (row : Row) : ℝ :=
  limestone_score row + gypsum_score row + salt_waste_score row

/-- `weather_efficiency = (1 + 0.01 * (temp - 25)) * (1 / (1 + 0.002 * rain))`
(physics_models.py line 105). -/
noncomputable def weather_efficiency (row : Row) : ℝ :=
  (1 + 0.01 * (row.temperature_mean - 25)) * (1 / (1 + 0.002 * row.rain_sum))

/-- `base_bittern = production_capacity * self.base_bittern_ratio * weather_efficiency`
(physics_models.py line 108). -/
noncomputable def base_bittern (row : Row) : ℝ :=
  row.production_capacity * base_bittern_ratio * weather_efficiency row

/-- `intensity_bittern = production_vol * self.intensity_bittern_ratio * weather_efficiency`
(physics_models.py line 112). -/
noncomputable def intensity_bittern (row : Row) : ℝ :=
  row.production_volume * intensity_bittern_ratio * weather_efficiency row

/-- `bittern_vol = base_bittern + intensity_bittern`
(physics_models.py line 115). -/
noncomputable def bittern_vol (row : Row) : ℝ :=
  base_bittern row + intensity_bittern row

/-- `wind_boost = 1 + 0.02 * (wind / 20.0)` (physics_models.py line 122). -/
noncomputable def wind_boost (row : Row) : ℝ :=
  1 + 0.02 * (row.wind_speed_mean / 20)

/-- `humidity_reduction = max(0.4, 1 - 0.01 * ((humidity - 50) / 50.0))`
(physics_models.py line 123). -/
noncomputable def humidity_reduction (row : Row) : ℝ :=
  max 0.4 (1 - 0.01 * ((row.humidity_mean - 50) / 50))

/-- `epsom_yield = base_epsom_yield * wind_boost * humidity_reduction` with
`base_epsom_yield = bittern_vol * recovery_factors['Epsom_Salt']`
(physics_models.py lines 121-124). -/
noncomputable def epsom_yield (row : Row) : ℝ :=
  bittern_vol row * recovery_Epsom_Salt * wind_boost row * humidity_reduction row

/-- `temp_evaporation_factor = 1 + 0.02 * max(0, temp - 25)`
(physics_models.py line 130). -/
noncomputable def temp_evaporation_factor (row : Row) : ℝ :=
  1 + 0.02 * max 0 (row.temperature_mean - 25)

/-- `rain_destruction_factor = 1 / (1 + 0.008 * rain)`
(physics_models.py line 131). -/
noncomputable def rain_destruction_factor (row : Row) : ℝ :=
  1 / (1 + 0.008 * row.rain_sum)

/-- `potash_yield = bittern_vol * recovery_factors['Potash'] *
temp_evaporation_factor * rain_destruction_factor`
(physics_models.py lines 132-133). -/
noncomputable def potash_yield (row : Row) : ℝ :=
  bittern_vol row * recovery_Potash * temp_evaporation_factor row *
    rain_destruction_factor row

/-- `humidity_boost = 1 + 0.015 * (humidity / 100.0)`
(physics_models.py line 140). -/
noncomputable def humidity_boost (row : Row) : ℝ :=
  1 + 0.015 * (row.humidity_mean / 100)

/-- `mag_oil_vol = base_mag_oil * humidity_boost` with
`base_mag_oil = bittern_vol * recovery_factors['Magnesium_Oil']`
(physics_models.py lines 139-141). -/
noncomputable def mag_oil_vol (row : Row) : ℝ :=
  bittern_vol row * recovery_Magnesium_Oil * humidity_boost row

/-- The dictionary returned by `calculate_composition`
(physics_models.py lines 84-144). -/
structure CompositionResult where
  Solid_Waste_Limestone_kg : ℝ
  Solid_Waste_Gypsum_kg : ℝ
  Solid_Waste_Industrial_Salt_kg : ℝ
  Liquid_Waste_Bittern_Liters : ℝ
  Potential_Epsom_Salt_kg : ℝ
  Potential_Potash_kg : ℝ
  Potential_Magnesium_Oil_Liters : ℝ

/-- `WasteCompositionModel.calculate_composition`
(physics_models.py lines 37-144).  The solid masses are
`total_solid_waste * (score / total_solid_score)` with NO special case for a
zero or non-finite score sum (lines 87-89 divide unconditionally); the three
byproduct outputs are clamped by `max(0, .)` (lines 125, 134, 142). -/
noncomputable def calculate_composition (row : Row) : CompositionResult :=
  { Solid_Waste_Limestone_kg :=
      row.predicted_waste_kg * (limestone_score row / total_solid_score row)
    Solid_Waste_Gypsum_kg :=
      row.predicted_waste_kg * (gypsum_score row / total_solid_score row)
    Solid_Waste_Industrial_Salt_kg :=
      row.predicted_waste_kg * (salt_waste_score row / total_solid_score row)
    Liquid_Waste_Bittern_Liters := bittern_vol row
    Potential_Epsom_Salt_kg := max 0 (epsom_yield row)
    Potential_Potash_kg := max 0 (potash_yield row)
    Potential_Magnesium_Oil_Liters := max 0 (mag_oil_vol row) }

/-- One row of the annual actual-waste table `yearly_waste_df`
(digital_twin.py lines 25, 34, 140-141). -/
structure YearRow where
  year : ℤ
  waste_kg : ℝ
  waste_bags : ℝ

/-- One row of the monthly feature table `monthly_features_df`; only the
columns read by `calculate_waste_potential` (digital_twin.py lines 108-113)
are kept. -/
structure MonthRow where
  year : ℤ
  production_volume : ℝ
  rain_sum : ℝ
  temperature_mean : ℝ

/-- The three `WasteDistributor.__init__` weights (digital_twin.py lines 8-15). -/
structure DistributorParams where
  production_weight : ℝ
  rain_weight : ℝ
  temp_weight : ℝ

/-- `WasteDistributor.calculate_waste_potential` for one row
(digital_twin.py lines 98-119):
`score = production ** production_weight * (1 + rain_weight * rain/500 + temp_weight * temp/35)`.
Python float `**` is modelled by the real power `Real.rpow`. -/
noncomputable def calculate_waste_potential (d : DistributorParams) (r : MonthRow) : ℝ :=
  r.production_volume ^ d.production_weight *
    (1 + d.rain_weight * (r.rain_sum / 500) + d.temp_weight * (r.temperature_mean / 35))

/-- The set `common_years = set(years_waste) & set(years_features)`
(digital_twin.py lines 24-27), modelled as the deduplicated list of years of
`yearly_waste_df` that also occur in `monthly_features_df` (the Python code
only ever sums over this set, so the iteration order is irrelevant). -/
def commonYears (yw : List YearRow) (mf : List MonthRow) : List ℤ :=
  ((yw.map YearRow.year).dedup).filter (fun y => (mf.map MonthRow.year).contains y)

/-- `yearly_waste_df[yearly_waste_df['Year'] == year]['Waste_KG'].values[0]`
(digital_twin.py line 34): the `Waste_KG` of the first row of the given year
(0 if the year is absent, which cannot happen for a common year). -/
def actualOf (yw : List YearRow) (y : ℤ) : ℝ :=
  match (yw.filter (fun r => r.year = y)).head? with
  | some r => r.waste_kg
  | none => 0

/-- `self.calculate_waste_potential(feats).sum()` for the rows of one year
(digital_twin.py lines 38-40). -/
noncomputable def yearScore (d : DistributorParams) (mf : List MonthRow) (y : ℤ) : ℝ :=
  ((mf.filter (fun r => r.year = y)).map (calculate_waste_potential d)).sum

/-- `WasteDistributor.calibrate` (digital_twin.py lines 19-46): accumulate
`total_actual_waste` and `total_calc_score` over the common years, then set
`calibration_factor = total_actual_waste / total_calc_score` if
`total_calc_score > 0`, else leave the constructor default `1.0`
(digital_twin.py lines 17, 42-46).  Returns the resulting
`calibration_factor` of a freshly constructed `WasteDistributor`. -/
noncomputable def calibrate (d : DistributorParams) (yw : List YearRow)
    (mf : List MonthRow) : ℝ :=
  let common := commonYears yw mf
  let total_actual_waste := (common.map (actualOf yw)).sum
  let total_calc_score := (common.map (yearScore d mf)).sum
  if total_calc_score > 0 then total_actual_waste / total_calc_score else 1

/-- The per-month `waste_fraction` column computed by the per-year body of
`WasteDistributor.distribute` (digital_twin.py lines 150-160): uniform
`1/len` if the summed potential is zero, else `potential / total_score`. -/
noncomputable def waste_fractions (d : DistributorParams) (rows : List MonthRow) : List ℝ :=
  let potentials := rows.map (calculate_waste_potential d)
  let total_score := potentials.sum
  if total_score = 0 then rows.map (fun _ => 1 / (rows.length : ℝ))
  else potentials.map (fun p => p / total_score)

/-- The per-month `predicted_waste_kg` column computed by the per-year body of
`WasteDistributor.distribute` (digital_twin.py line 163):
`total_waste_kg * waste_fraction`. -/
noncomputable def predicted_waste_kg_list (d : DistributorParams)
    (total_waste_kg : ℝ) (rows : List MonthRow) : List ℝ :=
  (waste_fractions d rows).map (fun f => total_waste_kg * f)

/-- A `(min, max)` bounds dictionary over the six optimization features
(`FeatureConstraints.BOUNDS` keys, constraints.py lines 27-34). -/
structure FeatureBounds where
  temperature_c : ℚ × ℚ
  humidity_pct : ℚ × ℚ
  rainfall_mm : ℚ × ℚ
  wind_speed_kmh : ℚ × ℚ
  production_kg : ℚ × ℚ
  month : ℚ × ℚ
deriving DecidableEq

/-- `FeatureConstraints.BOUNDS` (constraints.py lines 27-34). -/
def BOUNDS : FeatureBounds :=
  { temperature_c := (23, 35)
    humidity_pct := (45, 98)
    rainfall_mm := (0, 500)
    wind_speed_kmh := (2, 30)
    production_kg := (500000, 10000000)
    month := (1, 12) }

/-- One entry of `FeatureConstraints.SEASONAL_PATTERNS`
(constraints.py lines 37-70). -/
structure Season where
  months : List ℕ
  temperature_c : ℚ × ℚ
  humidity_pct : ℚ × ℚ
  rainfall_mm : ℚ × ℚ
  wind_speed_kmh : ℚ × ℚ
deriving DecidableEq

/-- `FeatureConstraints.SEASONAL_PATTERNS` in Python dict insertion order:
dry, inter_1, monsoon_sw, inter_2 (constraints.py lines 37-70). -/
def SEASONAL_PATTERNS : List Season :=
  [ { months := [12, 1, 2, 3]
      temperature_c := (25, 32)
      humidity_pct := (50, 85)
      rainfall_mm := (20, 160)
      wind_speed_kmh := (8, 20) },
    { months := [4, 5]
      temperature_c := (27, 33)
      humidity_pct := (70, 90)
      rainfall_mm := (100, 420)
      wind_speed_kmh := (12, 27) },
    { months := [6, 7, 8, 9]
      temperature_c := (26, 32)
      humidity_pct := (70, 90)
      rainfall_mm := (80, 220)
      wind_speed_kmh := (15, 26) },
    { months := [10, 11]
      temperature_c := (25, 30)
      humidity_pct := (80, 98)
      rainfall_mm := (200, 500)
      wind_speed_kmh := (8, 18) } ]

/-- `FeatureConstraints.get_seasonal_bounds` (constraints.py lines 101-132):
find the first season whose `months` list contains `month`; if none, return
`BOUNDS`; else that season's weather bounds, the global production bound and
`month` pinned to `(month, month)`. -/
def get_seasonal_bounds (month : ℕ) : FeatureBounds :=
  match SEASONAL_PATTERNS.find? (fun s => s.months.contains month) with
  | none => BOUNDS
  | some s =>
    { temperature_c := s.temperature_c
      humidity_pct := s.humidity_pct
      rainfall_mm := s.rainfall_mm
      wind_speed_kmh := s.wind_speed_kmh
      production_kg := BOUNDS.production_kg
      month := ((month : ℚ), (month : ℚ)) }

/-- Python `dict.get(key, default)` on a string-keyed association list
(first binding wins, as in a Python dict with unique keys). -/
def dictGet (l : List (String × ℚ)) (k : String) (deflt : ℚ) : ℚ :=
  match l.find? (fun p => p.1 = k) with
  | some p => p.2
  | none => deflt

/-- The effective weights dictionary of `_objective_target_waste`
(optimizer.py lines 234-235): `{k: 1.0 for k in target}` when `weights` is
`None`, else the given `weights`. -/
def effective_weights (target : List (String × ℚ))
    (weights : Option (List (String × ℚ))) : List (String × ℚ) :=
  match weights with
  | none => target.map (fun p => (p.1, (1 : ℚ)))
  | some ws => ws

/-- `WasteOptimizer._objective_target_waste` (optimizer.py lines 216-247):
`error = 0.0` then for each `(category, target_val)` in `target`,
`error += weights.get(category, 1.0) * (predicted.get(category, 0.0) - target_val) ** 2`.
`predictWaste` stands for the external regression model behind
`self.predict_waste` (optimizer.py lines 174-201). -/
def objective_target_waste (predictWaste : List ℚ → List (String × ℚ))
    (x : List ℚ) (target : List (String × ℚ))
    (weights : Option (List (String × ℚ))) : ℚ :=
  let predicted := predictWaste x
  let w := effective_weights target weights
  target.foldl
    (fun error p => error + dictGet w p.1 1 * (dictGet predicted p.1 0 - p.2) ^ 2) 0

/-- The fields of a scipy solver result that `optimize_target_waste` reads
(`result.x`, `result.fun`, `result.success`, `result.nit`, `result.message`). -/
structure SolverResult where
  x : List ℚ
  fval : ℚ
  success : Bool
  nit : ℕ
  message : String

/-- One solver invocation performed by `optimize_target_waste`: either the
`differential_evolution` call with its `maxiter` and `seed` keyword values
(optimizer.py lines 390-400) or one `minimize(..., method='SLSQP')`
refinement (optimizer.py lines 410-416). -/
inductive SearchStep where
  | diffEvolution (maxiter : ℕ) (seed : ℕ)
  | slsqpRefine
deriving DecidableEq

/-- The `OptimizationResult` dataclass fields populated by
`optimize_target_waste` (optimizer.py lines 34-44 and 431-440);
`predicted_waste` is the final `self.predict_waste(optimal_x)` call. -/
structure OptResult where
  success : Bool
  optimal_features : List ℚ
  predicted_waste : List (String × ℚ)
  target_waste : List (String × ℚ)
  objective_value : ℚ
  iterations : ℕ
  method : String
  message : String

/-- The bounds list `[bounds_dict[f] for f in self.feature_order]` built by
`optimize_target_waste` (optimizer.py lines 369-383): seasonal or global
bounds, production pinned when `production_kg` is given, month pinned. -/
def target_bounds_list (month : ℕ) (production_kg : Option ℚ)
    (use_seasonal_constraints : Bool) : List (ℚ × ℚ) :=
  let bd := if use_seasonal_constraints then get_seasonal_bounds month else BOUNDS
  let bd := match production_kg with
    | some p => { bd with production_kg := (p, p) }
    | none => bd
  let bd := { bd with month := ((month : ℚ), (month : ℚ)) }
  [bd.temperature_c, bd.humidity_pct, bd.rainfall_mm, bd.wind_speed_kmh,
    bd.production_kg, bd.month]

/-- `WasteOptimizer.optimize_target_waste` (optimizer.py lines 338-440),
returned together with the list of solver invocations it performs, in order.
External collaborators are oracle parameters: `deSolver` is scipy
`differential_evolution` (called with the objective, the bounds and the
literal keyword values `maxiter=2000`, `seed=42`), `slsqpSolver` is scipy
`minimize(..., method='SLSQP')` (called with the objective, a start point and
the bounds), `randomStart i` is the i-th `np.random.uniform` start of the
refinement loop, and `predictWaste` is the regression model.  The code always
runs `differential_evolution` first; if `result.fun > 0.1` it runs exactly
three SLSQP refinements and keeps the result with the smallest `fun`; the
returned `method` field is the caller-supplied `method` argument. -/
def optimize_target_waste
    (predictWaste : List ℚ → List (String × ℚ))
    (deSolver : (List ℚ → ℚ) → List (ℚ × ℚ) → ℕ → ℕ → SolverResult)
    (slsqpSolver : (List ℚ → ℚ) → List ℚ → List (ℚ × ℚ) → SolverResult)
    (randomStart : ℕ → List ℚ)
    (target_percentages : List (String × ℚ)) (month : ℕ)
    (production_kg : Option ℚ) (weights : Option (List (String × ℚ)))
    (method : String) (use_seasonal_constraints : Bool) :
    OptResult × List SearchStep :=
  let bounds := target_bounds_list month production_kg use_seasonal_constraints
  let objective := fun x => objective_target_waste predictWaste x target_percentages weights
  let deResult := deSolver objective bounds 2000 42
  let stepsAndResult :=
    if deResult.fval > 0.1 then
      let refinements := (List.range 3).map (fun i => slsqpSolver objective (randomStart i) bounds)
      (refinements.foldl (fun best r => if r.fval < best.fval then r else best) deResult,
        List.replicate 3 SearchStep.slsqpRefine)
    else (deResult, [])
  let result := stepsAndResult.1
  ({ success := result.success
     optimal_features := result.x
     predicted_waste := predictWaste result.x
     target_waste := target_percentages
     objective_value := result.fval
     iterations := result.nit
     method := method
     message := result.message },
   SearchStep.diffEvolution 2000 42 :: stepsAndResult.2)

/-- Concrete composition input used to witness the partition invariant:
capacity 50000 (so `scale_efficiency = 1`), utilization 0.8, neutral weather. -/
noncomputable def partitionRow : Row :=
  { predicted_waste_kg := 100
    production_volume := 40000
    production_capacity := 50000
    rain_sum := 0
    temperature_mean := 25
    humidity_mean := 50
    wind_speed_mean := 10 }

/-- Concrete composition input whose three solid scores sum to zero:
capacity 50000, utilization 0.8, rain 0 and temperature -425/3 °C make the
scores 0.15, -0.4 and 0.25. -/
noncomputable def zeroScoreRow : Row :=
  { predicted_waste_kg := 300
    production_volume := 40000
    production_capacity := 50000
    rain_sum := 0
    temperature_mean := -425 / 3
    humidity_mean := 50
    wind_speed_mean := 10 }

/-- The concrete scenario of spec §8 item 8: capacity 50000, volume 50000,
rain 100, temperature 28, humidity 75, wind 15. -/
noncomputable def scenarioRow : Row :=
  { predicted_waste_kg := 100
    production_volume := 50000
    production_capacity := 50000
    rain_sum := 100
    temperature_mean := 28
    humidity_mean := 75
    wind_speed_mean := 15 }

/-- Synthetic annual actuals table for the calibration round trip: one year
2020 with `Waste_KG = 20`. -/
noncomputable def calibYearRows : List YearRow :=
  [{ year := 2020, waste_kg := 20, waste_bags := 0 }]

/-- Synthetic monthly feature table for the calibration round trip: one row
for year 2020 with production 10 and zero weather, so its potential score
under `calibParams` is 10 and `20 = 2 * 10` (`k_true = 2`). -/
noncomputable def calibMonthRows : List MonthRow :=
  [{ year := 2020, production_volume := 10, rain_sum := 0, temperature_mean := 0 }]

/-- Distributor parameters of the calibration witness: the constructor
defaults `production_weight=1.0, rain_weight=0.0, temp_weight=0.0`
(digital_twin.py line 8). -/
noncomputable def calibParams : DistributorParams :=
  { production_weight := 1, rain_weight := 0, temp_weight := 0 }

/-- Claim C1: for every input row with non-negative `total_solid_waste` and a
positive solid-score sum, the three solid outputs of `calculate_composition`
sum exactly to `total_solid_waste` (exact equality in real arithmetic, hence
within any floating-point tolerance). -/
theorem calculate_composition_partition (row : Row)
    (hT : 0 ≤ row.predicted_waste_kg) (hs : 0 < total_solid_score row) :
    (calculate_composition row).Solid_Waste_Limestone_kg +
      (calculate_composition row).Solid_Waste_Gypsum_kg +
      (calculate_composition row).Solid_Waste_Industrial_Salt_kg =
      row.predicted_waste_kg := by
  have hne : total_solid_score row ≠ 0 := ne_of_gt hs
  have h1 : (calculate_composition row).Solid_Waste_Limestone_kg =
      row.predicted_waste_kg * (limestone_score row / total_solid_score row) := rfl
  have h2 : (calculate_composition row).Solid_Waste_Gypsum_kg =
      row.predicted_waste_kg * (gypsum_score row / total_solid_score row) := rfl
  have h3 : (calculate_composition row).Solid_Waste_Industrial_Salt_kg =
      row.predicted_waste_kg * (salt_waste_score row / total_solid_score row) := rfl
  have hcollect : row.predicted_waste_kg * (limestone_score row / total_solid_score row) +
      row.predicted_waste_kg * (gypsum_score row / total_solid_score row) +
      row.predicted_waste_kg * (salt_waste_score row / total_solid_score row) =
      row.predicted_waste_kg *
        ((limestone_score row + gypsum_score row + salt_waste_score row) /
          total_solid_score row) := by
    ring
  rw [h1, h2, h3, hcollect,
    show limestone_score row + gypsum_score row + salt_waste_score row =
      total_solid_score row from rfl,
    div_self hne, mul_one]

/-- Evaluation of `scale_efficiency` at the witness rows (capacity 50000). -/
theorem scale_efficiency_partitionRow : scale_efficiency partitionRow = 1 := by
  unfold scale_efficiency partitionRow
  norm_num

/-- Witness for C1 at `partitionRow`: the score sum is 1 and the solid masses
sum to the input total 100. -/
theorem calculate_composition_partition_witness :
    (calculate_composition partitionRow).Solid_Waste_Limestone_kg +
      (calculate_composition partitionRow).Solid_Waste_Gypsum_kg +
      (calculate_composition partitionRow).Solid_Waste_Industrial_Salt_kg = 100 :=
  calculate_composition_partition partitionRow (by norm_num [partitionRow])
    (by
      unfold total_solid_score limestone_score gypsum_score salt_waste_score
        gypsum_base salt_base intensity_factor production_intensity
        solid_ratio_Limestone solid_ratio_Gypsum solid_ratio_Industrial_Salt
      rw [scale_efficiency_partitionRow]
      unfold partitionRow
      norm_num [Real.sqrt_one])

/-- Evaluation of the solid-score sum at `zeroScoreRow`: the three scores are
0.15, -0.4 and 0.25, summing to zero. -/
theorem total_solid_score_zeroScoreRow : total_solid_score zeroScoreRow = 0 := by
  unfold total_solid_score limestone_score gypsum_score salt_waste_score
    gypsum_base salt_base intensity_factor production_intensity
    solid_ratio_Limestone solid_ratio_Gypsum solid_ratio_Industrial_Salt
  rw [show scale_efficiency zeroScoreRow = 1 by unfold scale_efficiency zeroScoreRow; norm_num]
  unfold zeroScoreRow
  norm_num [Real.sqrt_one]

/-- Counterexample for claim C2: at `zeroScoreRow` the three solid scores sum
to zero, yet `calculate_composition` does NOT assign one third of
`total_solid_waste` (here 300/3 = 100) to each category — lines 87-89 of
physics_models.py divide by the zero score sum unconditionally (in this
real-number embedding, where division by zero yields 0, the limestone output
is 0; in Python the same input raises `ZeroDivisionError` or yields
non-finite values — under no semantics is it 100). -/
theorem calculate_composition_no_equal_split :
    total_solid_score zeroScoreRow = 0 ∧
      (calculate_composition zeroScoreRow).Solid_Waste_Limestone_kg ≠
        zeroScoreRow.predicted_waste_kg / 3 := by
  refine ⟨total_solid_score_zeroScoreRow, ?_⟩
  have h1 : (calculate_composition zeroScoreRow).Solid_Waste_Limestone_kg =
      zeroScoreRow.predicted_waste_kg *
        (limestone_score zeroScoreRow / total_solid_score zeroScoreRow) := rfl
  rw [h1, total_solid_score_zeroScoreRow, div_zero, mul_zero]
  unfold zeroScoreRow
  norm_num

/-- Claim C2 amended: `calculate_composition` has no zero-score-sum fallback;
the division `score / total_solid_score` is performed unconditionally, so
when the score sum is zero every solid output is
`total_solid_waste * (score / 0)` — i.e. 0 in this embedding's division
convention, never an equal three-way split of a positive total. -/
theorem calculate_composition_zero_score_sum (row : Row)
    (hs : total_solid_score row = 0) :
    (calculate_composition row).Solid_Waste_Limestone_kg = 0 ∧
      (calculate_composition row).Solid_Waste_Gypsum_kg = 0 ∧
      (calculate_composition row).Solid_Waste_Industrial_Salt_kg = 0 := by
  refine ⟨?_, ?_, ?_⟩ <;>
    · show row.predicted_waste_kg * (_ / total_solid_score row) = 0
      rw [hs, div_zero, mul_zero]

/-- Witness for the amended C2 at `zeroScoreRow`. -/
theorem calculate_composition_zero_score_sum_witness :
    (calculate_composition zeroScoreRow).Solid_Waste_Limestone_kg = 0 ∧
      (calculate_composition zeroScoreRow).Solid_Waste_Gypsum_kg = 0 ∧
      (calculate_composition zeroScoreRow).Solid_Waste_Industrial_Salt_kg = 0 :=
  calculate_composition_zero_score_sum zeroScoreRow total_solid_score_zeroScoreRow

/-- Claim C3: for every input, `calculate_composition` returns a bittern
volume equal to `(production_capacity * 0.3 + production_volume * 0.7) *
weather_efficiency` with `weather_efficiency =
(1 + 0.01*(temperature-25)) / (1 + 0.002*rain)`; and at the concrete scenario
(capacity 50000, volume 50000, rain 100, temperature 28, humidity 75,
wind 15) the returned volume is within 1 liter of 42916 (it is 128750/3). -/
theorem bittern_vol_formula_and_trace :
    (∀ row : Row, (calculate_composition row).Liquid_Waste_Bittern_Liters =
      (row.production_capacity * 0.3 + row.production_volume * 0.7) *
        ((1 + 0.01 * (row.temperature_mean - 25)) / (1 + 0.002 * row.rain_sum))) ∧
    |(calculate_composition scenarioRow).Liquid_Waste_Bittern_Liters - 42916| ≤ 1 := by
  have hform : ∀ row : Row, (calculate_composition row).Liquid_Waste_Bittern_Liters =
      (row.production_capacity * 0.3 + row.production_volume * 0.7) *
        ((1 + 0.01 * (row.temperature_mean - 25)) / (1 + 0.002 * row.rain_sum)) := by
    intro row
    show bittern_vol row = _
    unfold bittern_vol base_bittern intensity_bittern weather_efficiency
      base_bittern_ratio intensity_bittern_ratio
    ring
  refine ⟨hform, ?_⟩
  rw [hform scenarioRow]
  unfold scenarioRow
  rw [abs_le]
  constructor <;> norm_num

/-- Positive capacity makes the capped scale-efficiency factor positive. -/
theorem scale_efficiency_pos (row : Row) (hcap : 0 < row.production_capacity) :
    0 < scale_efficiency row := by
  unfold scale_efficiency
  exact lt_min (by norm_num) (div_pos hcap (by norm_num))

/-- The limestone score is positive for positive capacity. -/
theorem limestone_score_pos (row : Row) (hcap : 0 < row.production_capacity) :
    0 < limestone_score row := by
  unfold limestone_score solid_ratio_Limestone
  exact div_pos (by norm_num) (scale_efficiency_pos row hcap)

/-- The gypsum score is positive for positive capacity and in-bounds
temperature. -/
theorem gypsum_score_pos (row : Row) (hcap : 0 < row.production_capacity)
    (htemp : 23 ≤ row.temperature_mean) : 0 < gypsum_score row := by
  unfold gypsum_score gypsum_base solid_ratio_Gypsum
  apply div_pos
  · nlinarith
  · exact Real.sqrt_pos.mpr (scale_efficiency_pos row hcap)

/-- The industrial-salt score is positive for positive volume and capacity
and non-negative rain. -/
theorem salt_waste_score_pos (row : Row) (hvol : 0 < row.production_volume)
    (hcap : 0 < row.production_capacity) (hrain : 0 ≤ row.rain_sum) :
    0 < salt_waste_score row := by
  unfold salt_waste_score salt_base intensity_factor production_intensity
    solid_ratio_Industrial_Salt
  have hu : 0 < row.production_volume / row.production_capacity := div_pos hvol hcap
  apply mul_pos
  · nlinarith
  · nlinarith

/-- The solid-score sum is positive for positive volume/capacity, in-bounds
temperature and non-negative rain. -/
theorem total_solid_score_pos (row : Row) (hvol : 0 < row.production_volume)
    (hcap : 0 < row.production_capacity) (htemp : 23 ≤ row.temperature_mean)
    (hrain : 0 ≤ row.rain_sum) : 0 < total_solid_score row := by
  unfold total_solid_score
  have h1 := limestone_score_pos row hcap
  have h2 := gypsum_score_pos row hcap htemp
  have h3 := salt_waste_score_pos row hvol hcap hrain
  linarith

/-- The weather-efficiency factor is positive for in-bounds temperature and
non-negative rain. -/
theorem weather_efficiency_pos (row : Row) (htemp : 23 ≤ row.temperature_mean)
    (hrain : 0 ≤ row.rain_sum) : 0 < weather_efficiency row := by
  unfold weather_efficiency
  apply mul_pos
  · nlinarith
  · rw [one_div_pos]
    nlinarith

/-- The bittern volume is positive for positive volume/capacity, in-bounds
temperature and non-negative rain. -/
theorem bittern_vol_pos (row : Row) (hvol : 0 < row.production_volume)
    (hcap : 0 < row.production_capacity) (htemp : 23 ≤ row.temperature_mean)
    (hrain : 0 ≤ row.rain_sum) : 0 < bittern_vol row := by
  have hwe := weather_efficiency_pos row htemp hrain
  unfold bittern_vol base_bittern intensity_bittern base_bittern_ratio
    intensity_bittern_ratio
  have h1 : 0 < row.production_capacity * 0.3 * weather_efficiency row :=
    mul_pos (mul_pos hcap (by norm_num)) hwe
  have h2 : 0 < row.production_volume * 0.7 * weather_efficiency row :=
    mul_pos (mul_pos hvol (by norm_num)) hwe
  linarith

/-- Claim C4: with `total_solid_waste ≥ 0`, positive production volume and
capacity, and weather inside the global bounds, every output field of
`calculate_composition` is non-negative. -/
theorem calculate_composition_nonneg (row : Row)
    (hT : 0 ≤ row.predicted_waste_kg)
    (hvol : 0 < row.production_volume) (hcap : 0 < row.production_capacity)
    (htemp : 23 ≤ row.temperature_mean ∧ row.temperature_mean ≤ 35)
    (hhum : 45 ≤ row.humidity_mean ∧ row.humidity_mean ≤ 98)
    (hrain : 0 ≤ row.rain_sum ∧ row.rain_sum ≤ 500)
    (hwind : 2 ≤ row.wind_speed_mean ∧ row.wind_speed_mean ≤ 30) :
    0 ≤ (calculate_composition row).Solid_Waste_Limestone_kg ∧
      0 ≤ (calculate_composition row).Solid_Waste_Gypsum_kg ∧
      0 ≤ (calculate_composition row).Solid_Waste_Industrial_Salt_kg ∧
      0 ≤ (calculate_composition row).Liquid_Waste_Bittern_Liters ∧
      0 ≤ (calculate_composition row).Potential_Epsom_Salt_kg ∧
      0 ≤ (calculate_composition row).Potential_Potash_kg ∧
      0 ≤ (calculate_composition row).Potential_Magnesium_Oil_Liters := by
  have hts := total_solid_score_pos row hvol hcap htemp.1 hrain.1
  refine ⟨?_, ?_, ?_, ?_, le_max_left 0 _, le_max_left 0 _, le_max_left 0 _⟩
  · exact mul_nonneg hT
      (div_nonneg (limestone_score_pos row hcap).le hts.le)
  · exact mul_nonneg hT
      (div_nonneg (gypsum_score_pos row hcap htemp.1).le hts.le)
  · exact mul_nonneg hT
      (div_nonneg (salt_waste_score_pos row hvol hcap hrain.1).le hts.le)
  · exact (bittern_vol_pos row hvol hcap htemp.1 hrain.1).le

/-- Witness for C4 at the spec §8 scenario row. -/
theorem calculate_composition_nonneg_witness :
    0 ≤ (calculate_composition scenarioRow).Solid_Waste_Limestone_kg ∧
      0 ≤ (calculate_composition scenarioRow).Solid_Waste_Gypsum_kg ∧
      0 ≤ (calculate_composition scenarioRow).Solid_Waste_Industrial_Salt_kg ∧
      0 ≤ (calculate_composition scenarioRow).Liquid_Waste_Bittern_Liters ∧
      0 ≤ (calculate_composition scenarioRow).Potential_Epsom_Salt_kg ∧
      0 ≤ (calculate_composition scenarioRow).Potential_Potash_kg ∧
      0 ≤ (calculate_composition scenarioRow).Potential_Magnesium_Oil_Liters :=
  calculate_composition_nonneg scenarioRow (by norm_num [scenarioRow])
    (by norm_num [scenarioRow]) (by norm_num [scenarioRow])
    (by norm_num [scenarioRow]) (by norm_num [scenarioRow])
    (by norm_num [scenarioRow]) (by norm_num [scenarioRow])

/-- The potash yield (before clamping) is positive for positive
volume/capacity, in-bounds temperature and non-negative rain. -/
theorem potash_yield_pos (row : Row) (hvol : 0 < row.production_volume)
    (hcap : 0 < row.production_capacity) (htemp : 23 ≤ row.temperature_mean)
    (hrain : 0 ≤ row.rain_sum) : 0 < potash_yield row := by
  have hb := bittern_vol_pos row hvol hcap htemp hrain
  have hmax : (0:ℝ) ≤ max 0 (row.temperature_mean - 25) := le_max_left 0 _
  unfold potash_yield recovery_Potash temp_evaporation_factor rain_destruction_factor
  have htf : (0:ℝ) < 1 + 0.02 * max 0 (row.temperature_mean - 25) := by nlinarith
  have hrd : (0:ℝ) < 1 / (1 + 0.008 * row.rain_sum) := by
    rw [one_div_pos]; nlinarith
  exact mul_pos (mul_pos (mul_pos hb (by norm_num)) htf) hrd

/-- The magnesium-oil yield (before clamping) is positive for positive
volume/capacity, in-bounds temperature, non-negative rain and non-negative
humidity. -/
theorem mag_oil_vol_pos (row : Row) (hvol : 0 < row.production_volume)
    (hcap : 0 < row.production_capacity) (htemp : 23 ≤ row.temperature_mean)
    (hrain : 0 ≤ row.rain_sum) (hhum : 0 ≤ row.humidity_mean) :
    0 < mag_oil_vol row := by
  have hb := bittern_vol_pos row hvol hcap htemp hrain
  unfold mag_oil_vol recovery_Magnesium_Oil humidity_boost
  have hhb : (0:ℝ) < 1 + 0.015 * (row.humidity_mean / 100) := by positivity
  exact mul_pos (mul_pos hb (by norm_num)) hhb

set_option maxHeartbeats 1600000 in
/-- Claim C5: holding all other inputs fixed, within the global bounds and
with positive utilization: the industrial-salt score strictly increases in
rain; the potash output strictly decreases in rain; the potash output
strictly increases in temperature above 25 °C; and the magnesium-oil output
strictly increases in humidity. -/
theorem monotonicity_spot_checks (row : Row) (r1 r2 t1 t2 u1 u2 : ℝ)
    (hvol : 0 < row.production_volume) (hcap : 0 < row.production_capacity)
    (htemp : 23 ≤ row.temperature_mean ∧ row.temperature_mean ≤ 35)
    (hhum : 45 ≤ row.humidity_mean ∧ row.humidity_mean ≤ 98)
    (hrain : 0 ≤ row.rain_sum ∧ row.rain_sum ≤ 500)
    (hr : 0 ≤ r1 ∧ r1 < r2 ∧ r2 ≤ 500)
    (ht : 25 < t1 ∧ t1 < t2 ∧ t2 ≤ 35)
    (hu : 45 ≤ u1 ∧ u1 < u2 ∧ u2 ≤ 98) :
    salt_waste_score { row with rain_sum := r1 } <
      salt_waste_score { row with rain_sum := r2 } ∧
    (calculate_composition { row with rain_sum := r2 }).Potential_Potash_kg <
      (calculate_composition { row with rain_sum := r1 }).Potential_Potash_kg ∧
    (calculate_composition { row with temperature_mean := t1 }).Potential_Potash_kg <
      (calculate_composition { row with temperature_mean := t2 }).Potential_Potash_kg ∧
    (calculate_composition { row with humidity_mean := u1 }).Potential_Magnesium_Oil_Liters <
      (calculate_composition { row with humidity_mean := u2 }).Potential_Magnesium_Oil_Liters := by
  obtain ⟨hr1, hr12, hr2⟩ := hr
  obtain ⟨ht1, ht12, ht2⟩ := ht
  obtain ⟨hu1, hu12, hu2⟩ := hu
  refine ⟨?_, ?_, ?_, ?_⟩
  · -- salt score strictly increasing in rain
    have hufac : 0 < row.production_volume / row.production_capacity :=
      div_pos hvol hcap
    show salt_base _ * intensity_factor _ < salt_base _ * intensity_factor _
    unfold salt_base intensity_factor production_intensity solid_ratio_Industrial_Salt
    dsimp only
    have hF : (0:ℝ) < 1 + 0.1 * (row.production_volume / row.production_capacity - 0.8) := by
      nlinarith
    nlinarith [mul_pos (sub_pos.mpr hr12) hF]
  · -- potash strictly decreasing in rain
    have hpos1 : 0 < potash_yield { row with rain_sum := r1 } :=
      potash_yield_pos _ hvol hcap htemp.1 hr1
    have hpos2 : 0 < potash_yield { row with rain_sum := r2 } :=
      potash_yield_pos _ hvol hcap htemp.1 (by linarith)
    show max 0 (potash_yield _) < max 0 (potash_yield _)
    rw [max_eq_right hpos1.le, max_eq_right hpos2.le]
    have hA : (0:ℝ) < 1 + 0.01 * (row.temperature_mean - 25) := by nlinarith [htemp.1]
    have htf : (0:ℝ) < 1 + 0.02 * max 0 (row.temperature_mean - 25) := by
      have := le_max_left (0:ℝ) (row.temperature_mean - 25)
      nlinarith
    have hN : (0:ℝ) < (row.production_capacity * 0.3 + row.production_volume * 0.7) *
        (1 + 0.01 * (row.temperature_mean - 25)) * 0.02 *
        (1 + 0.02 * max 0 (row.temperature_mean - 25)) := by
      have hcv : (0:ℝ) < row.production_capacity * 0.3 + row.production_volume * 0.7 := by
        nlinarith
      exact mul_pos (mul_pos (mul_pos hcv hA) (by norm_num)) htf
    have hform : ∀ r : ℝ, potash_yield { row with rain_sum := r } =
        (row.production_capacity * 0.3 + row.production_volume * 0.7) *
          (1 + 0.01 * (row.temperature_mean - 25)) * 0.02 *
          (1 + 0.02 * max 0 (row.temperature_mean - 25)) *
          ((1 + 0.002 * r)⁻¹ * (1 + 0.008 * r)⁻¹) := by
      intro r
      unfold potash_yield bittern_vol base_bittern intensity_bittern
        weather_efficiency temp_evaporation_factor rain_destruction_factor
        recovery_Potash base_bittern_ratio intensity_bittern_ratio
      dsimp only
      ring
    rw [hform r1, hform r2]
    apply mul_lt_mul_of_pos_left _ hN
    have hd1 : (0:ℝ) < 1 + 0.002 * r1 := by linarith
    have hd2 : (0:ℝ) < 1 + 0.002 * r2 := by linarith
    have he1 : (0:ℝ) < 1 + 0.008 * r1 := by linarith
    have he2 : (0:ℝ) < 1 + 0.008 * r2 := by linarith
    have hinv1 : (1 + 0.002 * r2)⁻¹ < (1 + 0.002 * r1)⁻¹ :=
      inv_lt_inv_of_lt hd1 (by linarith)
    have hinv2 : (1 + 0.008 * r2)⁻¹ < (1 + 0.008 * r1)⁻¹ :=
      inv_lt_inv_of_lt he1 (by linarith)
    exact mul_lt_mul hinv1 hinv2.le (inv_pos.mpr he2) (inv_pos.mpr hd1).le
  · -- potash strictly increasing in temperature above 25
    have hpos1 : 0 < potash_yield { row with temperature_mean := t1 } :=
      potash_yield_pos _ hvol hcap (by linarith) hrain.1
    have hpos2 : 0 < potash_yield { row with temperature_mean := t2 } :=
      potash_yield_pos _ hvol hcap (by linarith) hrain.1
    show max 0 (potash_yield _) < max 0 (potash_yield _)
    rw [max_eq_right hpos1.le, max_eq_right hpos2.le]
    have hM : (0:ℝ) < (row.production_capacity * 0.3 + row.production_volume * 0.7) *
        0.02 * ((1 + 0.002 * row.rain_sum)⁻¹ * (1 + 0.008 * row.rain_sum)⁻¹) := by
      have hcv : (0:ℝ) < row.production_capacity * 0.3 + row.production_volume * 0.7 := by
        nlinarith
      have hd : (0:ℝ) < 1 + 0.002 * row.rain_sum := by linarith [hrain.1]
      have he : (0:ℝ) < 1 + 0.008 * row.rain_sum := by linarith [hrain.1]
      exact mul_pos (mul_pos hcv (by norm_num))
        (mul_pos (inv_pos.mpr hd) (inv_pos.mpr he))
    have hform : ∀ t : ℝ, potash_yield { row with temperature_mean := t } =
        (row.production_capacity * 0.3 + row.production_volume * 0.7) * 0.02 *
          ((1 + 0.002 * row.rain_sum)⁻¹ * (1 + 0.008 * row.rain_sum)⁻¹) *
          ((1 + 0.01 * (t - 25)) * (1 + 0.02 * max 0 (t - 25))) := by
      intro t
      unfold potash_yield bittern_vol base_bittern intensity_bittern
        weather_efficiency temp_evaporation_factor rain_destruction_factor
        recovery_Potash base_bittern_ratio intensity_bittern_ratio
      dsimp only
      ring
    rw [hform t1, hform t2]
    apply mul_lt_mul_of_pos_left _ hM
    rw [max_eq_right (by linarith : (0:ℝ) ≤ t1 - 25),
      max_eq_right (by linarith : (0:ℝ) ≤ t2 - 25)]
    nlinarith
  · -- magnesium oil strictly increasing in humidity
    have hb : 0 < bittern_vol row := bittern_vol_pos row hvol hcap htemp.1 hrain.1
    have hpos1 : 0 < mag_oil_vol { row with humidity_mean := u1 } :=
      mag_oil_vol_pos _ hvol hcap htemp.1 hrain.1 (by linarith)
    have hpos2 : 0 < mag_oil_vol { row with humidity_mean := u2 } :=
      mag_oil_vol_pos _ hvol hcap htemp.1 hrain.1 (by linarith)
    show max 0 (mag_oil_vol _) < max 0 (mag_oil_vol _)
    rw [max_eq_right hpos1.le, max_eq_right hpos2.le]
    have hform : ∀ u : ℝ, mag_oil_vol { row with humidity_mean := u } =
        bittern_vol row * 0.10 * (1 + 0.015 * (u / 100)) := by
      intro u
      rfl
    rw [hform u1, hform u2]
    have hbp : (0:ℝ) < bittern_vol row * 0.10 := mul_pos hb (by norm_num)
    apply mul_lt_mul_of_pos_left _ hbp
    linarith

/-- Witness for C5 at the scenario row with rain 0→200, temperature 26→30
and humidity 50→90. -/
theorem monotonicity_spot_checks_witness :
    salt_waste_score { scenarioRow with rain_sum := 0 } <
      salt_waste_score { scenarioRow with rain_sum := 200 } ∧
    (calculate_composition { scenarioRow with rain_sum := 200 }).Potential_Potash_kg <
      (calculate_composition { scenarioRow with rain_sum := 0 }).Potential_Potash_kg ∧
    (calculate_composition { scenarioRow with temperature_mean := 26 }).Potential_Potash_kg <
      (calculate_composition { scenarioRow with temperature_mean := 30 }).Potential_Potash_kg ∧
    (calculate_composition { scenarioRow with humidity_mean := 50 }).Potential_Magnesium_Oil_Liters <
      (calculate_composition { scenarioRow with humidity_mean := 90 }).Potential_Magnesium_Oil_Liters :=
  monotonicity_spot_checks scenarioRow 0 200 26 30 50 90
    (by norm_num [scenarioRow]) (by norm_num [scenarioRow])
    (by norm_num [scenarioRow]) (by norm_num [scenarioRow])
    (by norm_num [scenarioRow]) (by norm_num) (by norm_num) (by norm_num)

/-- Claim C6: on a fresh `WasteDistributor`, `calibrate` sets the factor to
(sum of annual actuals) / (sum of monthly potential scores) over the common
years whenever the score sum is positive — hence equals `k_true` on synthetic
data where each year's actual is `k_true` times its summed score — and leaves
the sentinel 1.0 whenever the score sum is zero (e.g. no overlapping years). -/
theorem calibrate_global_ratio_and_round_trip (d : DistributorParams)
    (yw : List YearRow) (mf : List MonthRow) (k : ℝ)
    (hk : ∀ y ∈ commonYears yw mf, actualOf yw y = k * yearScore d mf y)
    (hS : 0 < ((commonYears yw mf).map (yearScore d mf)).sum) :
    calibrate d yw mf = ((commonYears yw mf).map (actualOf yw)).sum /
        ((commonYears yw mf).map (yearScore d mf)).sum ∧
    calibrate d yw mf = k ∧
    (∀ (yw' : List YearRow) (mf' : List MonthRow),
      ((commonYears yw' mf').map (yearScore d mf')).sum = 0 →
        calibrate d yw' mf' = 1) := by
  have hratio : calibrate d yw mf = ((commonYears yw mf).map (actualOf yw)).sum /
      ((commonYears yw mf).map (yearScore d mf)).sum := by
    unfold calibrate
    dsimp only
    rw [if_pos hS]
  refine ⟨hratio, ?_, ?_⟩
  · have hA : ((commonYears yw mf).map (actualOf yw)).sum =
        k * ((commonYears yw mf).map (yearScore d mf)).sum := by
      rw [← List.sum_map_mul_left]
      exact congrArg List.sum (List.map_congr_left hk)
    rw [hratio, hA, mul_div_assoc, div_self (ne_of_gt hS), mul_one]
  · intro yw' mf' h0
    unfold calibrate
    dsimp only
    rw [if_neg]
    rw [h0]
    exact lt_irrefl 0

/-- The single common year of the synthetic calibration tables. -/
theorem commonYears_calib : commonYears calibYearRows calibMonthRows = [2020] := by
  decide

/-- The synthetic actual of year 2020 is 20. -/
theorem actualOf_calib : actualOf calibYearRows 2020 = 20 := rfl

/-- The synthetic potential-score sum of year 2020 is `10 ^ 1 * (1+0+0) = 10`. -/
theorem yearScore_calib : yearScore calibParams calibMonthRows 2020 = 10 := by
  unfold yearScore calibMonthRows calibParams calculate_waste_potential
  norm_num [Real.rpow_natCast]

/-- Witness for C6 on the synthetic tables with `k_true = 2`. -/
theorem calibrate_round_trip_witness :
    calibrate calibParams calibYearRows calibMonthRows =
        ((commonYears calibYearRows calibMonthRows).map (actualOf calibYearRows)).sum /
          ((commonYears calibYearRows calibMonthRows).map
            (yearScore calibParams calibMonthRows)).sum ∧
    calibrate calibParams calibYearRows calibMonthRows = 2 ∧
    (∀ (yw' : List YearRow) (mf' : List MonthRow),
      ((commonYears yw' mf').map (yearScore calibParams mf')).sum = 0 →
        calibrate calibParams yw' mf' = 1) :=
  calibrate_global_ratio_and_round_trip calibParams calibYearRows calibMonthRows 2
    (by
      intro y hy
      rw [commonYears_calib, List.mem_singleton] at hy
      subst hy
      rw [actualOf_calib, yearScore_calib]
      norm_num)
    (by
      rw [commonYears_calib]
      simp [yearScore_calib])

/-- Claim C7: for every month 1..12, `get_seasonal_bounds` returns min ≤ max
for every non-month feature, the weather bounds of the (unique) season whose
month list contains the month, the global production bound
(500000, 10000000), and the month bound pinned to `(month, month)`. -/
theorem get_seasonal_bounds_spec (m : ℕ) (h1 : 1 ≤ m) (h2 : m ≤ 12) :
    ((get_seasonal_bounds m).temperature_c.1 ≤ (get_seasonal_bounds m).temperature_c.2 ∧
      (get_seasonal_bounds m).humidity_pct.1 ≤ (get_seasonal_bounds m).humidity_pct.2 ∧
      (get_seasonal_bounds m).rainfall_mm.1 ≤ (get_seasonal_bounds m).rainfall_mm.2 ∧
      (get_seasonal_bounds m).wind_speed_kmh.1 ≤ (get_seasonal_bounds m).wind_speed_kmh.2 ∧
      (get_seasonal_bounds m).production_kg.1 ≤ (get_seasonal_bounds m).production_kg.2) ∧
    (get_seasonal_bounds m).production_kg = (500000, 10000000) ∧
    (get_seasonal_bounds m).month = ((m : ℚ), (m : ℚ)) ∧
    (∀ s ∈ SEASONAL_PATTERNS, s.months.contains m →
      (get_seasonal_bounds m).temperature_c = s.temperature_c ∧
      (get_seasonal_bounds m).humidity_pct = s.humidity_pct ∧
      (get_seasonal_bounds m).rainfall_mm = s.rainfall_mm ∧
      (get_seasonal_bounds m).wind_speed_kmh = s.wind_speed_kmh) := by
  interval_cases m <;> exact by decide

/-- Witness for C7 at month 7 (southwest monsoon). -/
theorem get_seasonal_bounds_spec_witness :
    ((get_seasonal_bounds 7).temperature_c.1 ≤ (get_seasonal_bounds 7).temperature_c.2 ∧
      (get_seasonal_bounds 7).humidity_pct.1 ≤ (get_seasonal_bounds 7).humidity_pct.2 ∧
      (get_seasonal_bounds 7).rainfall_mm.1 ≤ (get_seasonal_bounds 7).rainfall_mm.2 ∧
      (get_seasonal_bounds 7).wind_speed_kmh.1 ≤ (get_seasonal_bounds 7).wind_speed_kmh.2 ∧
      (get_seasonal_bounds 7).production_kg.1 ≤ (get_seasonal_bounds 7).production_kg.2) ∧
    (get_seasonal_bounds 7).production_kg = (500000, 10000000) ∧
    (get_seasonal_bounds 7).month = ((7 : ℚ), (7 : ℚ)) ∧
    (∀ s ∈ SEASONAL_PATTERNS, s.months.contains 7 →
      (get_seasonal_bounds 7).temperature_c = s.temperature_c ∧
      (get_seasonal_bounds 7).humidity_pct = s.humidity_pct ∧
      (get_seasonal_bounds 7).rainfall_mm = s.rainfall_mm ∧
      (get_seasonal_bounds 7).wind_speed_kmh = s.wind_speed_kmh) :=
  get_seasonal_bounds_spec 7 (by norm_num) (by norm_num)

/-- The Python accumulation loop `error = 0; for ...: error += f(...)` equals
the sum of the mapped terms. -/
theorem foldl_add_eq_sum {α : Type} (f : α → ℚ) (l : List α) (c : ℚ) :
    l.foldl (fun a x => a + f x) c = c + (l.map f).sum := by
  induction l generalizing c with
  | nil => simp
  | cons x xs ih =>
    simp only [List.foldl_cons, List.map_cons, List.sum_cons, ih]
    ring

/-- A lookup with default `c` in an association list whose values are all `c`
returns `c`. -/
theorem dictGet_of_all (l : List (String × ℚ)) (key : String) (c : ℚ)
    (h : ∀ p ∈ l, p.2 = c) : dictGet l key c = c := by
  unfold dictGet
  cases hf : l.find? (fun q => q.1 = key) with
  | none => rfl
  | some q => exact h q (List.mem_of_find?_eq_some hf)

/-- A sum of non-negative rationals vanishes exactly when every term does. -/
theorem sum_eq_zero_iff_of_nonneg (l : List ℚ) (h : ∀ z ∈ l, 0 ≤ z) :
    l.sum = 0 ↔ ∀ z ∈ l, z = 0 := by
  induction l with
  | nil => simp
  | cons x xs ih =>
    have hx : 0 ≤ x := h x (List.mem_cons_self x xs)
    have hxs : ∀ z ∈ xs, 0 ≤ z := fun z hz => h z (List.mem_cons_of_mem x hz)
    have hsum : 0 ≤ xs.sum := List.sum_nonneg hxs
    simp only [List.sum_cons, List.mem_cons]
    constructor
    · intro h0
      have hx0 : x = 0 := by linarith
      have hs0 : xs.sum = 0 := by linarith
      intro z hz
      rcases hz with rfl | hz
      · exact hx0
      · exact ((ih hxs).mp hs0) z hz
    · intro hall
      rw [hall x (Or.inl rfl), (ih hxs).mpr (fun z hz => hall z (Or.inr hz))]
      ring

/-- The accumulated `_objective_target_waste` loop as an explicit sum over
the target entries. -/
theorem objective_target_waste_eq_sum (predictWaste : List ℚ → List (String × ℚ))
    (x : List ℚ) (target : List (String × ℚ))
    (weights : Option (List (String × ℚ))) :
    objective_target_waste predictWaste x target weights =
      (target.map (fun p => dictGet (effective_weights target weights) p.1 1 *
        (dictGet (predictWaste x) p.1 0 - p.2) ^ 2)).sum := by
  unfold objective_target_waste
  dsimp only
  rw [foldl_add_eq_sum
    (fun p => dictGet (effective_weights target weights) p.1 1 *
      (dictGet (predictWaste x) p.1 0 - p.2) ^ 2) target 0]
  rw [zero_add]

/-- Counterexample for claim C8 as stated: with a caller-supplied weights
dictionary assigning weight 0 to the targeted category, the objective is 0
even though the targeted prediction (7) differs from the target (5) — so
"the penalty is zero exactly when every targeted prediction equals its
target" fails for arbitrary weights dictionaries. -/
theorem objective_target_waste_zero_weight :
    objective_target_waste (fun _ => [("total_waste_kg", (7:ℚ))]) [0]
        [("total_waste_kg", 5)] (some [("total_waste_kg", 0)]) = 0 ∧
      dictGet ((fun _ => [("total_waste_kg", (7:ℚ))]) [(0:ℚ)]) "total_waste_kg" 0 ≠ 5 := by
  constructor
  · rw [objective_target_waste_eq_sum]
    norm_num [dictGet, effective_weights, List.find?]
  · norm_num [dictGet, List.find?]

/-- Claim C8 amended: for every feature vector, target dictionary and weights
dictionary, the target-mode objective equals
`Σ weight_i * (predicted_i - target_i)^2` over the target entries, with
weight defaulting to 1 when `weights` is `None` or the category is absent;
categories outside the target contribute nothing (the objective depends on
predictions only at targeted categories); and — provided every targeted
category's effective weight is positive, as is automatic for the `None`
default — the penalty is zero exactly when every targeted prediction equals
its target. -/
theorem objective_target_waste_spec (predictWaste : List ℚ → List (String × ℚ))
    (x : List ℚ) (target : List (String × ℚ))
    (weights : Option (List (String × ℚ)))
    (hpos : ∀ p ∈ target, 0 < dictGet (effective_weights target weights) p.1 1) :
    objective_target_waste predictWaste x target weights =
      (target.map (fun p => dictGet (effective_weights target weights) p.1 1 *
        (dictGet (predictWaste x) p.1 0 - p.2) ^ 2)).sum ∧
    (∀ key : String, dictGet (effective_weights target none) key 1 = 1) ∧
    (∀ (predictWaste2 : List ℚ → List (String × ℚ)) (x2 : List ℚ),
      (∀ p ∈ target, dictGet (predictWaste2 x2) p.1 0 = dictGet (predictWaste x) p.1 0) →
      objective_target_waste predictWaste2 x2 target weights =
        objective_target_waste predictWaste x target weights) ∧
    (objective_target_waste predictWaste x target weights = 0 ↔
      ∀ p ∈ target, dictGet (predictWaste x) p.1 0 = p.2) := by
  refine ⟨objective_target_waste_eq_sum predictWaste x target weights, ?_, ?_, ?_⟩
  · intro key
    apply dictGet_of_all
    intro p hp
    unfold effective_weights at hp
    obtain ⟨q, _, rfl⟩ := List.mem_map.mp hp
    rfl
  · intro pW2 x2 hagree
    rw [objective_target_waste_eq_sum, objective_target_waste_eq_sum]
    exact congrArg List.sum (List.map_congr_left (fun p hp => by rw [hagree p hp]))
  · rw [objective_target_waste_eq_sum]
    have hnn : ∀ z ∈ target.map (fun p => dictGet (effective_weights target weights) p.1 1 *
        (dictGet (predictWaste x) p.1 0 - p.2) ^ 2), 0 ≤ z := by
      intro z hz
      obtain ⟨p, hp, rfl⟩ := List.mem_map.mp hz
      exact mul_nonneg (hpos p hp).le (sq_nonneg _)
    rw [sum_eq_zero_iff_of_nonneg _ hnn]
    constructor
    · intro h p hp
      have hz := h _ (List.mem_map_of_mem _ hp)
      have hw := hpos p hp
      have hsq : (dictGet (predictWaste x) p.1 0 - p.2) ^ 2 = 0 := by
        rcases mul_eq_zero.mp hz with hw0 | hsq
        · exact absurd hw0 (ne_of_gt hw)
        · exact hsq
      have := (pow_eq_zero_iff (two_ne_zero)).mp hsq
      linarith [this]
    · intro h z hz
      obtain ⟨p, hp, rfl⟩ := List.mem_map.mp hz
      rw [h p hp]
      ring

/-- Witness for the amended C8: target `total_waste_kg ↦ 5` with default
weights, prediction constantly 4. -/
theorem objective_target_waste_spec_witness :
    objective_target_waste (fun _ => [("total_waste_kg", (4:ℚ))]) [0]
        [("total_waste_kg", 5)] none =
      ([("total_waste_kg", (5:ℚ))].map
        (fun p => dictGet (effective_weights [("total_waste_kg", (5:ℚ))] none) p.1 1 *
          (dictGet ((fun _ => [("total_waste_kg", (4:ℚ))]) [(0:ℚ)]) p.1 0 - p.2) ^ 2)).sum ∧
    (∀ key : String,
      dictGet (effective_weights [("total_waste_kg", (5:ℚ))] none) key 1 = 1) ∧
    (∀ (predictWaste2 : List ℚ → List (String × ℚ)) (x2 : List ℚ),
      (∀ p ∈ [("total_waste_kg", (5:ℚ))],
        dictGet (predictWaste2 x2) p.1 0 =
          dictGet ((fun _ => [("total_waste_kg", (4:ℚ))]) [(0:ℚ)]) p.1 0) →
      objective_target_waste predictWaste2 x2 [("total_waste_kg", 5)] none =
        objective_target_waste (fun _ => [("total_waste_kg", (4:ℚ))]) [0]
          [("total_waste_kg", 5)] none) ∧
    (objective_target_waste (fun _ => [("total_waste_kg", (4:ℚ))]) [0]
        [("total_waste_kg", 5)] none = 0 ↔
      ∀ p ∈ [("total_waste_kg", (5:ℚ))],
        dictGet ((fun _ => [("total_waste_kg", (4:ℚ))]) [(0:ℚ)]) p.1 0 = p.2) :=
  objective_target_waste_spec (fun _ => [("total_waste_kg", (4:ℚ))]) [0]
    [("total_waste_kg", 5)] none
    (by
      intro p hp
      rw [List.mem_singleton] at hp
      subst hp
      norm_num [effective_weights, dictGet, List.find?])

/-- Dividing every term of a list by a constant divides the sum. -/
theorem sum_map_div (l : List ℝ) (c : ℝ) :
    (l.map (fun p => p / c)).sum = l.sum / c := by
  induction l with
  | nil => simp
  | cons x xs ih => simp [ih, add_div]

/-- Claim C9: for a year with at least one monthly feature row and
non-negative monthly potential scores, the waste fractions computed by
`distribute` sum to 1 (via `potential/total` or via the uniform `1/N`
fallback), so the monthly `predicted_waste_kg` values sum to the year's
annual `Waste_KG`. -/
theorem distribute_fractions_sum (d : DistributorParams) (total_waste_kg : ℝ)
    (rows : List MonthRow) (hne : rows ≠ [])
    (hnn : ∀ r ∈ rows, 0 ≤ calculate_waste_potential d r) :
    (waste_fractions d rows).sum = 1 ∧
    (predicted_waste_kg_list d total_waste_kg rows).sum = total_waste_kg := by
  have h1 : (waste_fractions d rows).sum = 1 := by
    unfold waste_fractions
    dsimp only
    by_cases h0 : (rows.map (calculate_waste_potential d)).sum = 0
    · rw [if_pos h0]
      have hlen : rows.length ≠ 0 := fun h => hne (List.length_eq_zero.mp h)
      rw [List.map_const', List.sum_replicate, nsmul_eq_mul, mul_one_div,
        div_self (Nat.cast_ne_zero.mpr hlen)]
    · rw [if_neg h0, sum_map_div, div_self h0]
  refine ⟨h1, ?_⟩
  unfold predicted_waste_kg_list
  rw [List.sum_map_mul_left, List.map_id', h1, mul_one]

/-- Witness for C9 on the synthetic one-row year with annual total 20. -/
theorem distribute_fractions_sum_witness :
    (waste_fractions calibParams calibMonthRows).sum = 1 ∧
    (predicted_waste_kg_list calibParams 20 calibMonthRows).sum = 20 :=
  distribute_fractions_sum calibParams 20 calibMonthRows
    (by simp [calibMonthRows])
    (by
      intro r hr
      rw [show calibMonthRows =
        [{ year := 2020, production_volume := 10, rain_sum := 0,
           temperature_mean := 0 }] from rfl, List.mem_singleton] at hr
      subst hr
      unfold calculate_waste_potential calibParams
      norm_num [Real.rpow_natCast])

/-- Claim C10: every `optimize_target_waste` call performs differential
evolution first (maxiter 2000, seed 42), followed by at most three SLSQP
refinements (exactly three when the differential-evolution objective exceeds
0.1, none otherwise), for every value of the `method` argument; yet the
`method` field of the returned result is always the caller-supplied `method`
string, so the reported name need not match the search performed. -/
theorem optimize_target_waste_method_report
    (predictWaste : List ℚ → List (String × ℚ))
    (deSolver : (List ℚ → ℚ) → List (ℚ × ℚ) → ℕ → ℕ → SolverResult)
    (slsqpSolver : (List ℚ → ℚ) → List ℚ → List (ℚ × ℚ) → SolverResult)
    (randomStart : ℕ → List ℚ)
    (target : List (String × ℚ)) (month : ℕ) (production_kg : Option ℚ)
    (weights : Option (List (String × ℚ))) (method : String)
    (use_seasonal_constraints : Bool) :
    (optimize_target_waste predictWaste deSolver slsqpSolver randomStart target
        month production_kg weights method use_seasonal_constraints).1.method =
      method ∧
    (optimize_target_waste predictWaste deSolver slsqpSolver randomStart target
        month production_kg weights method use_seasonal_constraints).2.head? =
      some (SearchStep.diffEvolution 2000 42) ∧
    (optimize_target_waste predictWaste deSolver slsqpSolver randomStart target
        month production_kg weights method use_seasonal_constraints).2.tail.length ≤ 3 ∧
    (∀ s ∈ (optimize_target_waste predictWaste deSolver slsqpSolver randomStart
        target month production_kg weights method use_seasonal_constraints).2.tail,
      s = SearchStep.slsqpRefine) := by
  refine ⟨rfl, rfl, ?_, ?_⟩
  · unfold optimize_target_waste
    dsimp only
    split
    · simp
    · simp
  · unfold optimize_target_waste
    dsimp only
    split
    · intro s hs
      simp only [List.tail_cons] at hs
      exact List.eq_of_mem_replicate hs
    · intro s hs
      simp at hs
